import Mathlib

/-!
Shallow embedding of the socket relay of server.js: the participant
registry (`rooms`), the per-room message history (`messageHistory`), and
the three socket handlers (`join`, `chatMessage`, `disconnect`).

JavaScript `Map`s preserve insertion order, so they are embedded as
association lists over `String` keys: `Map.set` on an existing key keeps
its position, `Map.delete` removes the entry, `for ... of` iterates in
list order.  The remote translation and suggestion services are embedded
as function parameters returning `Option` (a `none` result is the thrown
error caught by the corresponding `catch` block).  `new Date().toISOString()`
is embedded as a timestamp argument `ts` threaded into each handler; the
source computes it once per handler invocation.
-/

/-- A participant profile, as stored by the join handler via
`rooms.get(room).set(socket.id, { username, language, role })`. -/
structure Participant where
  username : String
  language : String
  role : String
  deriving DecidableEq

/-- A history record.  Join notices carry only `username`, `text`,
`timestamp` and `type`; chat fan-out records additionally carry
`originalText`, `isTranslated` and the sender `role`, so those three
fields are optional. -/
structure MsgRecord where
  username : String
  text : String
  timestamp : String
  type : String
  originalText : Option String := none
  isTranslated : Option Bool := none
  role : Option String := none
  deriving DecidableEq

/-- The socket emissions a handler can perform. -/
inductive Output where
  | errorTo (sock : String) (message : String)
  | historyTo (sock : String) (records : List MsgRecord)
  | messageToRoom (room : String) (record : MsgRecord)
  | messageTo (sock : String) (record : MsgRecord)
  | suggestionsTo (sock : String) (batch : List String)
  deriving DecidableEq

/-- `Map.get`: first entry with the given key. -/
def alGet {α : Type} : List (String × α) → String → Option α
  | [], _ => none
  | (k, v) :: rest, key => if k = key then some v else alGet rest key

/-- `Map.set`: replace in place if the key is present, else append. -/
def alSet {α : Type} : List (String × α) → String → α → List (String × α)
  | [], key, v => [(key, v)]
  | (k, w) :: rest, key, v =>
    if k = key then (key, v) :: rest else (k, w) :: alSet rest key v

/-- `Map.delete`: remove the first entry with the given key. -/
def alDel {α : Type} : List (String × α) → String → List (String × α)
  | [], _ => []
  | (k, w) :: rest, key => if k = key then rest else (k, w) :: alDel rest key

/-- The mutable server state: `const rooms = new Map()` and
`const messageHistory = new Map()`. -/
structure ServerState where
  rooms : List (String × List (String × Participant))
  messageHistory : List (String × List MsgRecord)
  deriving DecidableEq

/-- The `socket.on('join', ...)` handler.  Validation rejects any missing
(empty) field; then the room map is created if absent and the profile
stored; if the room already has a history it is replayed to the joiner,
filtered for the `user` role; finally a system join notice is appended to
the (possibly just created) history and broadcast to the room. -/
def handleJoin (st : ServerState) (sock room username language role ts : String) :
    ServerState × List Output :=
  if room = "" ∨ username = "" ∨ language = "" ∨ role = "" then
    (st, [Output.errorTo sock "Invalid join parameters"])
  else
    let rooms1 := if (alGet st.rooms room).isSome then st.rooms
                  else alSet st.rooms room []
    let rooms2 := alSet rooms1 room
      (alSet ((alGet rooms1 room).getD []) sock
        { username := username, language := language, role := role })
    let replayOut : List Output :=
      match alGet st.messageHistory room with
      | some hist =>
        [Output.historyTo sock (hist.filter (fun msg =>
          if role = "user" then msg.type != "system" && msg.type != "private"
          else true))]
      | none => []
    let joinMessage : MsgRecord :=
      { username := "System", text := username ++ " has joined the chat",
        timestamp := ts, type := "system" }
    let hist1 := if (alGet st.messageHistory room).isSome then st.messageHistory
                 else alSet st.messageHistory room []
    let hist2 := alSet hist1 room (((alGet hist1 room).getD []) ++ [joinMessage])
    ({ rooms := rooms2, messageHistory := hist2 },
     replayOut ++ [Output.messageToRoom room joinMessage])

/-- One iteration body of the delivery fan-out loop: build the per-recipient
record, translating when the recipient's stored language differs from the
sender-declared one.  A `none` is the thrown translation error, caught by
the per-recipient `catch`. -/
def deliverOne (tr : String → String → Option String) (sender : Participant)
    (message language ts : String) (p : String × Participant) : Option MsgRecord :=
  if p.2.language = language then
    some { username := sender.username, text := message,
           originalText := some message, isTranslated := some false,
           timestamp := ts, type := "public", role := some sender.role }
  else
    match tr message p.2.language with
    | some t =>
      some { username := sender.username, text := t,
             originalText := some message, isTranslated := some true,
             timestamp := ts, type := "public", role := some sender.role }
    | none => none

/-- The delivery fan-out loop over the room's participant entries, in map
iteration order: returns the records pushed onto the history (successes
only, in order) and the per-recipient emissions (a `message` on success, a
delivery-failure `error` on failure). -/
def fanOut (tr : String → String → Option String) (sender : Participant)
    (message language ts : String) :
    List (String × Participant) → List MsgRecord × List Output
  | [] => ([], [])
  | p :: rest =>
    match deliverOne tr sender message language ts p with
    | some r =>
      let tail := fanOut tr sender message language ts rest
      (r :: tail.1, Output.messageTo p.1 r :: tail.2)
    | none =>
      let tail := fanOut tr sender message language ts rest
      (tail.1, Output.errorTo p.1 "Message delivery failed" :: tail.2)

/-- The `socket.on('chatMessage', ...)` handler.  After validation and
resolving the room and the sender, the suggestion branch runs only for a
sender of role `user` (a failure there is reported to the sender alone),
then the delivery fan-out runs over every participant.  The source pushes
each successful record with `messageHistory.get(room).push(...)`; the log
exists for every registered room (it is created by the join that created
the room), which the embedding renders with `getD []`. -/
def handleChatMessage (tr : String → String → Option String)
    (sug : String → Option (List String)) (st : ServerState)
    (sock room message language ts : String) : ServerState × List Output :=
  if room = "" ∨ message = "" ∨ language = "" then
    (st, [Output.errorTo sock "Invalid message parameters"])
  else
    match alGet st.rooms room with
    | none => (st, [Output.errorTo sock "Room not found"])
    | some roomUsers =>
      match alGet roomUsers sock with
      | none => (st, [Output.errorTo sock "User not found in room"])
      | some sender =>
        let sugOut : List Output :=
          if sender.role = "user" then
            match sug message with
            | some suggestions =>
              (roomUsers.filter (fun p => p.2.role == "agent")).map
                (fun p => Output.suggestionsTo p.1 suggestions)
            | none => [Output.errorTo sock "Failed to generate suggestions"]
          else []
        let fo := fanOut tr sender message language ts roomUsers
        ({ rooms := st.rooms,
           messageHistory := alSet st.messageHistory room
             (((alGet st.messageHistory room).getD []) ++ fo.1) },
         sugOut ++ fo.2)

/-- The room acted on by a disconnect: the first room in iteration order
whose participant map holds the socket. -/
def firstRoomOf (sock : String) :
    List (String × List (String × Participant)) → Option String
  | [] => none
  | (room, users) :: rest =>
    if (alGet users sock).isSome then some room else firstRoomOf sock rest

/-- The loop of the `socket.on('disconnect', ...)` handler: find the first
room holding the socket, delete the participant, and if the room became
empty delete the room and its history; then `break`. -/
def disconnectAux (sock : String) :
    List (String × List (String × Participant)) → List (String × List MsgRecord) →
    List (String × List (String × Participant)) × List (String × List MsgRecord)
  | [], h => ([], h)
  | (room, users) :: rest, h =>
    if (alGet users sock).isSome then
      let users2 := alDel users sock
      if users2.isEmpty then (rest, alDel h room)
      else ((room, users2) :: rest, h)
    else
      let tail := disconnectAux sock rest h
      ((room, users) :: tail.1, tail.2)

/-- The `socket.on('disconnect', ...)` handler.  It performs no socket
emission: the departure is only logged to the server console. -/
def handleDisconnect (st : ServerState) (sock : String) :
    ServerState × List Output :=
  let p := disconnectAux sock st.rooms st.messageHistory
  ({ rooms := p.1, messageHistory := p.2 }, [])

/-- An inbound socket event, with the nondeterministic timestamp of the
handler invocation made explicit. -/
inductive Event where
  | join (sock room username language role ts : String)
  | chat (sock room message language ts : String)
  | disc (sock : String)

/-- The state transition of one event (gateways fixed). -/
def step (tr : String → String → Option String)
    (sug : String → Option (List String)) (st : ServerState) : Event → ServerState
  | Event.join sock room username language role ts =>
    (handleJoin st sock room username language role ts).1
  | Event.chat sock room message language ts =>
    (handleChatMessage tr sug st sock room message language ts).1
  | Event.disc sock => (handleDisconnect st sock).1

/-- The state at server start: both maps empty. -/
def initState : ServerState := { rooms := [], messageHistory := [] }

/-- The state after a sequence of events from server start. -/
def runEvents (tr : String → String → Option String)
    (sug : String → Option (List String)) (es : List Event) : ServerState :=
  es.foldl (step tr sug) initState

/-- The structural invariant maintained by the handlers: both maps have
duplicate-free keys, and every registered room has at least one
participant. -/
def GoodState (st : ServerState) : Prop :=
  (st.rooms.map Prod.fst).Nodup ∧ (st.messageHistory.map Prod.fst).Nodup ∧
  ∀ e ∈ st.rooms, e.2 ≠ ([] : List (String × Participant))

/-! ### Association-list lemmas -/

theorem alGet_alSet_self {α : Type} (m : List (String × α)) (key : String) (v : α) :
    alGet (alSet m key v) key = some v := by
  induction m with
  | nil => simp [alGet, alSet]
  | cons e rest ih =>
    obtain ⟨k, w⟩ := e
    by_cases h : k = key
    · simp [alGet, alSet, h]
    · simp [alGet, alSet, h, ih]

theorem alGet_alSet_ne {α : Type} (m : List (String × α)) (key k : String) (v : α)
    (h : k ≠ key) : alGet (alSet m key v) k = alGet m k := by
  have hks : key ≠ k := Ne.symm h
  induction m with
  | nil => simp [alGet, alSet, hks]
  | cons e rest ih =>
    obtain ⟨k2, w⟩ := e
    by_cases h2 : k2 = key
    · subst h2
      simp [alGet, alSet, hks]
    · simp [alGet, alSet, h2, ih]

theorem alSet_alSet {α : Type} (m : List (String × α)) (key : String) (v w : α) :
    alSet (alSet m key v) key w = alSet m key w := by
  induction m with
  | nil => simp [alSet]
  | cons e rest ih =>
    obtain ⟨k, u⟩ := e
    by_cases h : k = key
    · simp [alSet, h]
    · simp [alSet, h, ih]

theorem alGet_mem {α : Type} (m : List (String × α)) (key : String) (v : α)
    (h : alGet m key = some v) : (key, v) ∈ m := by
  induction m with
  | nil => simp [alGet] at h
  | cons e rest ih =>
    obtain ⟨k, w⟩ := e
    by_cases h2 : k = key
    · subst h2
      simp [alGet] at h
      subst h
      exact List.mem_cons_self _ _
    · simp [alGet, h2] at h
      exact List.mem_cons_of_mem _ (ih h)

theorem keys_alSet {α : Type} (m : List (String × α)) (key : String) (v : α) :
    (alSet m key v).map Prod.fst =
      if key ∈ m.map Prod.fst then m.map Prod.fst else m.map Prod.fst ++ [key] := by
  induction m with
  | nil => simp [alSet]
  | cons e rest ih =>
    obtain ⟨k2, w⟩ := e
    by_cases h2 : k2 = key
    · subst h2
      simp [alSet]
    · simp only [alSet, if_neg h2, List.map_cons, ih, List.mem_cons]
      by_cases h3 : key ∈ rest.map Prod.fst <;>
        simp [h3, Ne.symm h2]

theorem nodup_keys_alSet {α : Type} (m : List (String × α)) (key : String) (v : α)
    (h : (m.map Prod.fst).Nodup) : ((alSet m key v).map Prod.fst).Nodup := by
  rw [keys_alSet]
  by_cases h2 : key ∈ m.map Prod.fst
  · simpa [h2] using h
  · simp only [if_neg h2]
    refine List.Nodup.append h (List.nodup_singleton key) ?_
    intro a ha hb
    rw [List.mem_singleton] at hb
    subst hb
    exact h2 ha

theorem alDel_sublist {α : Type} (m : List (String × α)) (key : String) :
    (alDel m key).Sublist m := by
  induction m with
  | nil => simp [alDel]
  | cons e rest ih =>
    obtain ⟨k, w⟩ := e
    by_cases h : k = key
    · simp only [alDel, if_pos h]
      exact List.sublist_cons_self (k, w) rest
    · simp only [alDel, if_neg h]
      exact List.Sublist.cons₂ (k, w) ih

theorem alGet_alDel_self {α : Type} (m : List (String × α)) (key : String)
    (h : (m.map Prod.fst).Nodup) : alGet (alDel m key) key = none := by
  induction m with
  | nil => simp [alDel, alGet]
  | cons e rest ih =>
    obtain ⟨k, w⟩ := e
    simp only [List.map_cons, List.nodup_cons] at h
    by_cases h2 : k = key
    · subst h2
      simp only [alDel, if_pos rfl]
      cases h3 : alGet rest k with
      | none => exact h3
      | some v =>
        exact absurd (by simpa using List.mem_map_of_mem Prod.fst (alGet_mem rest k v h3)) h.1
    · simp [alDel, alGet, h2, ih h.2]

theorem alSet_ne_nil {α : Type} (m : List (String × α)) (key : String) (v : α) :
    alSet m key v ≠ [] := by
  cases m with
  | nil => simp [alSet]
  | cons e rest =>
    obtain ⟨k, w⟩ := e
    by_cases h : k = key <;> simp [alSet, h]

theorem alSet_forall {α : Type} {P : String × α → Prop} (m : List (String × α))
    (key : String) (v : α) (hm : ∀ e ∈ m, P e) (hv : P (key, v)) :
    ∀ e ∈ alSet m key v, P e := by
  induction m with
  | nil => simpa [alSet] using hv
  | cons e rest ih =>
    obtain ⟨k, w⟩ := e
    by_cases h : k = key
    · simp only [alSet, if_pos h]
      intro e2 he2
      rcases List.mem_cons.mp he2 with h2 | h2
      · subst h2
        exact hv
      · exact hm e2 (List.mem_cons_of_mem _ h2)
    · simp only [alSet, if_neg h]
      intro e2 he2
      rcases List.mem_cons.mp he2 with h2 | h2
      · subst h2
        exact hm _ (List.mem_cons_self _ _)
      · exact ih (fun e3 he3 => hm e3 (List.mem_cons_of_mem _ he3)) e2 h2

/-! ### Handler normal forms -/

theorem handleJoin_rooms (st : ServerState) (sock room username language role ts : String)
    (h : ¬(room = "" ∨ username = "" ∨ language = "" ∨ role = "")) :
    (handleJoin st sock room username language role ts).1.rooms =
      alSet st.rooms room (alSet ((alGet st.rooms room).getD []) sock
        { username := username, language := language, role := role }) := by
  unfold handleJoin
  rw [if_neg h]
  cases h2 : alGet st.rooms room with
  | none => simp [h2, alGet_alSet_self, alSet_alSet]
  | some users => simp [h2]

theorem handleJoin_messageHistory (st : ServerState)
    (sock room username language role ts : String)
    (h : ¬(room = "" ∨ username = "" ∨ language = "" ∨ role = "")) :
    (handleJoin st sock room username language role ts).1.messageHistory =
      alSet st.messageHistory room (((alGet st.messageHistory room).getD []) ++
        [{ username := "System", text := username ++ " has joined the chat",
           timestamp := ts, type := "system" }]) := by
  unfold handleJoin
  rw [if_neg h]
  cases h2 : alGet st.messageHistory room with
  | none => simp [h2, alGet_alSet_self, alSet_alSet]
  | some hist => simp [h2]

theorem handleJoin_outputs_hist (st : ServerState)
    (sock room username language role ts : String) (hist : List MsgRecord)
    (h : ¬(room = "" ∨ username = "" ∨ language = "" ∨ role = ""))
    (hh : alGet st.messageHistory room = some hist) :
    (handleJoin st sock room username language role ts).2 =
      [Output.historyTo sock (hist.filter (fun msg =>
         if role = "user" then msg.type != "system" && msg.type != "private"
         else true)),
       Output.messageToRoom room
         { username := "System", text := username ++ " has joined the chat",
           timestamp := ts, type := "system" }] := by
  unfold handleJoin
  rw [if_neg h]
  simp [hh]

theorem handleJoin_outputs_nohist (st : ServerState)
    (sock room username language role ts : String)
    (h : ¬(room = "" ∨ username = "" ∨ language = "" ∨ role = ""))
    (hh : alGet st.messageHistory room = none) :
    (handleJoin st sock room username language role ts).2 =
      [Output.messageToRoom room
         { username := "System", text := username ++ " has joined the chat",
           timestamp := ts, type := "system" }] := by
  unfold handleJoin
  rw [if_neg h]
  simp [hh]

theorem fanOut_fst (tr : String → String → Option String) (sender : Participant)
    (message language ts : String) (users : List (String × Participant)) :
    (fanOut tr sender message language ts users).1 =
      users.filterMap (deliverOne tr sender message language ts) := by
  induction users with
  | nil => simp [fanOut]
  | cons p rest ih =>
    cases h : deliverOne tr sender message language ts p with
    | some r => simp [fanOut, h, ih]
    | none => simp [fanOut, h, ih]

theorem fanOut_snd (tr : String → String → Option String) (sender : Participant)
    (message language ts : String) (users : List (String × Participant)) :
    (fanOut tr sender message language ts users).2 =
      users.map (fun p =>
        match deliverOne tr sender message language ts p with
        | some r => Output.messageTo p.1 r
        | none => Output.errorTo p.1 "Message delivery failed") := by
  induction users with
  | nil => simp [fanOut]
  | cons p rest ih =>
    cases h : deliverOne tr sender message language ts p with
    | some r => simp [fanOut, h, ih]
    | none => simp [fanOut, h, ih]

theorem handleChatMessage_eq (tr : String → String → Option String)
    (sug : String → Option (List String)) (st : ServerState)
    (sock room message language ts : String)
    (roomUsers : List (String × Participant)) (sender : Participant)
    (hv : ¬(room = "" ∨ message = "" ∨ language = ""))
    (hr : alGet st.rooms room = some roomUsers)
    (hs : alGet roomUsers sock = some sender) :
    handleChatMessage tr sug st sock room message language ts =
      ({ rooms := st.rooms,
         messageHistory := alSet st.messageHistory room
           (((alGet st.messageHistory room).getD []) ++
             roomUsers.filterMap (deliverOne tr sender message language ts)) },
       (if sender.role = "user" then
          match sug message with
          | some suggestions =>
            (roomUsers.filter (fun p => p.2.role == "agent")).map
              (fun p => Output.suggestionsTo p.1 suggestions)
          | none => [Output.errorTo sock "Failed to generate suggestions"]
        else []) ++
       roomUsers.map (fun p =>
         match deliverOne tr sender message language ts p with
         | some r => Output.messageTo p.1 r
         | none => Output.errorTo p.1 "Message delivery failed")) := by
  unfold handleChatMessage
  rw [if_neg hv]
  simp [hr, hs, fanOut_fst, fanOut_snd]

/-! ### Disconnect lemmas -/

theorem disconnectAux_keep (sock r : String) (users : List (String × Participant))
    (rooms : List (String × List (String × Participant)))
    (h : List (String × List MsgRecord))
    (hfirst : firstRoomOf sock rooms = some r)
    (hget : alGet rooms r = some users)
    (hin : (alGet users sock).isSome)
    (hne : alDel users sock ≠ []) :
    disconnectAux sock rooms h = (alSet rooms r (alDel users sock), h) := by
  induction rooms with
  | nil => simp [firstRoomOf] at hfirst
  | cons e rest ih =>
    obtain ⟨k, us⟩ := e
    by_cases hks : (alGet us sock).isSome
    · simp only [firstRoomOf, if_pos hks, Option.some.injEq] at hfirst
      subst hfirst
      simp [alGet] at hget
      subst hget
      simp only [disconnectAux, if_pos hks, List.isEmpty_iff]
      rw [if_neg hne]
      simp [alSet]
    · simp only [firstRoomOf, if_neg hks] at hfirst
      have hkr : k ≠ r := by
        intro hkr
        subst hkr
        simp [alGet] at hget
        subst hget
        exact hks hin
      simp only [alGet, if_neg hkr] at hget
      simp only [disconnectAux, if_neg hks, ih hfirst hget]
      simp [alSet, hkr]

theorem disconnectAux_empty (sock r : String) (users : List (String × Participant))
    (rooms : List (String × List (String × Participant)))
    (h : List (String × List MsgRecord))
    (hfirst : firstRoomOf sock rooms = some r)
    (hget : alGet rooms r = some users)
    (hin : (alGet users sock).isSome)
    (hemp : alDel users sock = []) :
    disconnectAux sock rooms h = (alDel rooms r, alDel h r) := by
  induction rooms with
  | nil => simp [firstRoomOf] at hfirst
  | cons e rest ih =>
    obtain ⟨k, us⟩ := e
    by_cases hks : (alGet us sock).isSome
    · simp only [firstRoomOf, if_pos hks, Option.some.injEq] at hfirst
      subst hfirst
      simp [alGet] at hget
      subst hget
      simp only [disconnectAux, if_pos hks, List.isEmpty_iff]
      rw [if_pos hemp]
      simp [alDel]
    · simp only [firstRoomOf, if_neg hks] at hfirst
      have hkr : k ≠ r := by
        intro hkr
        subst hkr
        simp [alGet] at hget
        subst hget
        exact hks hin
      simp only [alGet, if_neg hkr] at hget
      simp only [disconnectAux, if_neg hks, ih hfirst hget]
      simp [alDel, hkr]

theorem disconnectAux_fst_keys_sublist (sock : String)
    (rooms : List (String × List (String × Participant)))
    (h : List (String × List MsgRecord)) :
    ((disconnectAux sock rooms h).1.map Prod.fst).Sublist (rooms.map Prod.fst) := by
  induction rooms with
  | nil => simp [disconnectAux]
  | cons e rest ih =>
    obtain ⟨k, us⟩ := e
    by_cases hks : (alGet us sock).isSome
    · simp only [disconnectAux, if_pos hks]
      by_cases hemp : (alDel us sock).isEmpty
      · rw [if_pos hemp]
        exact (List.map Prod.fst rest).sublist_cons_self k
      · rw [if_neg hemp]
        simp
    · simp only [disconnectAux, if_neg hks, List.map_cons]
      exact List.Sublist.cons₂ k ih

theorem disconnectAux_snd_keys_sublist (sock : String)
    (rooms : List (String × List (String × Participant)))
    (h : List (String × List MsgRecord)) :
    ((disconnectAux sock rooms h).2.map Prod.fst).Sublist (h.map Prod.fst) := by
  induction rooms with
  | nil => simp [disconnectAux]
  | cons e rest ih =>
    obtain ⟨k, us⟩ := e
    by_cases hks : (alGet us sock).isSome
    · simp only [disconnectAux, if_pos hks]
      by_cases hemp : (alDel us sock).isEmpty
      · rw [if_pos hemp]
        exact List.Sublist.map Prod.fst (alDel_sublist h k)
      · rw [if_neg hemp]
    · simp only [disconnectAux, if_neg hks]
      exact ih

theorem disconnectAux_fst_nonempty (sock : String)
    (rooms : List (String × List (String × Participant)))
    (h : List (String × List MsgRecord))
    (hr : ∀ e ∈ rooms, e.2 ≠ ([] : List (String × Participant))) :
    ∀ e ∈ (disconnectAux sock rooms h).1, e.2 ≠ ([] : List (String × Participant)) := by
  induction rooms with
  | nil => simp [disconnectAux]
  | cons e rest ih =>
    obtain ⟨k, us⟩ := e
    by_cases hks : (alGet us sock).isSome
    · simp only [disconnectAux, if_pos hks]
      by_cases hemp : (alDel us sock).isEmpty
      · rw [if_pos hemp]
        exact fun e2 he2 => hr e2 (List.mem_cons_of_mem _ he2)
      · rw [if_neg hemp]
        intro e2 he2
        rcases List.mem_cons.mp he2 with h2 | h2
        · subst h2
          simpa [List.isEmpty_iff] using hemp
        · exact hr e2 (List.mem_cons_of_mem _ h2)
    · simp only [disconnectAux, if_neg hks]
      intro e2 he2
      rcases List.mem_cons.mp he2 with h2 | h2
      · subst h2
        exact hr _ (List.mem_cons_self _ _)
      · exact ih (fun e3 he3 => hr e3 (List.mem_cons_of_mem _ he3)) e2 h2

/-! ### The reachable-state invariant -/

theorem goodState_init : GoodState initState := by
  refine ⟨?_, ?_, ?_⟩ <;> simp [initState]

theorem goodState_join (st : ServerState) (sock room username language role ts : String)
    (hst : GoodState st) :
    GoodState (handleJoin st sock room username language role ts).1 := by
  by_cases hv : (room = "" ∨ username = "" ∨ language = "" ∨ role = "")
  · simp only [handleJoin, if_pos hv]
    exact hst
  · refine ⟨?_, ?_, ?_⟩
    · rw [handleJoin_rooms st sock room username language role ts hv]
      exact nodup_keys_alSet _ _ _ hst.1
    · rw [handleJoin_messageHistory st sock room username language role ts hv]
      exact nodup_keys_alSet _ _ _ hst.2.1
    · rw [handleJoin_rooms st sock room username language role ts hv]
      exact alSet_forall _ _ _ hst.2.2 (alSet_ne_nil _ _ _)

theorem goodState_chat (tr : String → String → Option String)
    (sug : String → Option (List String)) (st : ServerState)
    (sock room message language ts : String) (hst : GoodState st) :
    GoodState (handleChatMessage tr sug st sock room message language ts).1 := by
  by_cases hv : (room = "" ∨ message = "" ∨ language = "")
  · simp only [handleChatMessage, if_pos hv]
    exact hst
  · cases hr : alGet st.rooms room with
    | none =>
      simp only [handleChatMessage, if_neg hv, hr]
      exact hst
    | some roomUsers =>
      cases hs : alGet roomUsers sock with
      | none =>
        simp only [handleChatMessage, if_neg hv, hr, hs]
        exact hst
      | some sender =>
        rw [handleChatMessage_eq tr sug st sock room message language ts roomUsers sender hv hr hs]
        exact ⟨hst.1, nodup_keys_alSet _ _ _ hst.2.1, hst.2.2⟩

theorem goodState_disc (st : ServerState) (sock : String) (hst : GoodState st) :
    GoodState (handleDisconnect st sock).1 := by
  refine ⟨?_, ?_, ?_⟩
  · exact List.Nodup.sublist
      (disconnectAux_fst_keys_sublist sock st.rooms st.messageHistory) hst.1
  · exact List.Nodup.sublist
      (disconnectAux_snd_keys_sublist sock st.rooms st.messageHistory) hst.2.1
  · exact disconnectAux_fst_nonempty sock st.rooms st.messageHistory hst.2.2

theorem goodState_step (tr : String → String → Option String)
    (sug : String → Option (List String)) (st : ServerState) (e : Event)
    (hst : GoodState st) : GoodState (step tr sug st e) := by
  cases e with
  | join sock room username language role ts =>
    exact goodState_join st sock room username language role ts hst
  | chat sock room message language ts =>
    exact goodState_chat tr sug st sock room message language ts hst
  | disc sock => exact goodState_disc st sock hst

theorem goodState_foldl (tr : String → String → Option String)
    (sug : String → Option (List String)) (es : List Event) (st : ServerState)
    (hst : GoodState st) : GoodState (es.foldl (step tr sug) st) := by
  induction es generalizing st with
  | nil => exact hst
  | cons e rest ih => exact ih _ (goodState_step tr sug st e hst)

theorem goodState_runEvents (tr : String → String → Option String)
    (sug : String → Option (List String)) (es : List Event) :
    GoodState (runEvents tr sug es) :=
  goodState_foldl tr sug es initState goodState_init

/-! ### Fan-out auxiliary lemmas -/

theorem deliverOne_isSome (tr : String → String → Option String) (sender : Participant)
    (message language ts : String) (p : String × Participant)
    (h : p.2.language = language ∨ (tr message p.2.language).isSome) :
    (deliverOne tr sender message language ts p).isSome := by
  unfold deliverOne
  by_cases h2 : p.2.language = language
  · simp [h2]
  · rcases h with h | h
    · exact absurd h h2
    · rw [if_neg h2]
      cases h3 : tr message p.2.language with
      | none => simp [h3] at h
      | some t => simp

theorem deliverOne_timestamp (tr : String → String → Option String) (sender : Participant)
    (message language ts : String) (p : String × Participant) (r : MsgRecord)
    (h : deliverOne tr sender message language ts p = some r) : r.timestamp = ts := by
  unfold deliverOne at h
  by_cases h2 : p.2.language = language
  · rw [if_pos h2] at h
    cases h
    rfl
  · rw [if_neg h2] at h
    cases h3 : tr message p.2.language with
    | none => rw [h3] at h; cases h
    | some t =>
      rw [h3] at h
      cases h
      rfl

theorem filterMap_length_of_all {α β : Type} (f : α → Option β) (l : List α)
    (h : ∀ a ∈ l, (f a).isSome) : (l.filterMap f).length = l.length := by
  induction l with
  | nil => simp
  | cons a rest ih =>
    cases h2 : f a with
    | none =>
      have := h a (List.mem_cons_self _ _)
      rw [h2] at this
      simp at this
    | some b =>
      simp only [List.filterMap_cons, h2, List.length_cons]
      rw [ih (fun a2 ha2 => h a2 (List.mem_cons_of_mem _ ha2))]

theorem filterMap_length_le {α β : Type} (f : α → Option β) (l : List α) :
    (l.filterMap f).length ≤ l.length := by
  induction l with
  | nil => simp
  | cons a rest ih =>
    cases h2 : f a with
    | none =>
      simp only [List.filterMap_cons, h2, List.length_cons]
      exact Nat.le_succ_of_le ih
    | some b =>
      simp only [List.filterMap_cons, h2, List.length_cons]
      exact Nat.succ_le_succ ih

theorem filterMap_length_lt {α β : Type} (f : α → Option β) (l : List α) (a : α)
    (ha : a ∈ l) (hf : f a = none) : (l.filterMap f).length < l.length := by
  induction l with
  | nil => simp at ha
  | cons b rest ih =>
    rcases List.mem_cons.mp ha with h2 | h2
    · subst h2
      simp only [List.filterMap_cons, hf, List.length_cons]
      exact Nat.lt_succ_of_le (filterMap_length_le f rest)
    · cases h3 : f b with
      | none =>
        simp only [List.filterMap_cons, h3, List.length_cons]
        exact Nat.lt_succ_of_lt (ih h2)
      | some c =>
        simp only [List.filterMap_cons, h3, List.length_cons]
        exact Nat.succ_lt_succ (ih h2)

theorem handleChatMessage_outputs (tr : String → String → Option String)
    (sug : String → Option (List String)) (st : ServerState)
    (sock room message language ts : String)
    (roomUsers : List (String × Participant)) (sender : Participant)
    (hv : ¬(room = "" ∨ message = "" ∨ language = ""))
    (hr : alGet st.rooms room = some roomUsers)
    (hs : alGet roomUsers sock = some sender) :
    (handleChatMessage tr sug st sock room message language ts).2 =
      (if sender.role = "user" then
         match sug message with
         | some suggestions =>
           (roomUsers.filter (fun p => p.2.role == "agent")).map
             (fun p => Output.suggestionsTo p.1 suggestions)
         | none => [Output.errorTo sock "Failed to generate suggestions"]
       else []) ++
      roomUsers.map (fun p =>
        match deliverOne tr sender message language ts p with
        | some r => Output.messageTo p.1 r
        | none => Output.errorTo p.1 "Message delivery failed") := by
  rw [handleChatMessage_eq tr sug st sock room message language ts roomUsers sender hv hr hs]

theorem handleChatMessage_messageHistory (tr : String → String → Option String)
    (sug : String → Option (List String)) (st : ServerState)
    (sock room message language ts : String)
    (roomUsers : List (String × Participant)) (sender : Participant)
    (hv : ¬(room = "" ∨ message = "" ∨ language = ""))
    (hr : alGet st.rooms room = some roomUsers)
    (hs : alGet roomUsers sock = some sender) :
    (handleChatMessage tr sug st sock room message language ts).1.messageHistory =
      alSet st.messageHistory room (((alGet st.messageHistory room).getD []) ++
        roomUsers.filterMap (deliverOne tr sender message language ts)) := by
  rw [handleChatMessage_eq tr sug st sock room message language ts roomUsers sender hv hr hs]

/-! ### Claim theorems -/

/-- C1 counterexample: room r1 holds Ann and Bob; Bob's socket disconnects
while Ann remains.  The handler emits nothing at all (so no system-tagged
departure notice is broadcast to Ann), and the room history is unchanged (so
no departure notice is appended), although the room does remain registered. -/
theorem c1_counterexample :
    (handleDisconnect
      (runEvents (fun _ _ => none) (fun _ => none)
        [Event.join "s1" "r1" "Ann" "en" "agent" "t1",
         Event.join "s2" "r1" "Bob" "fr" "user" "t2"]) "s2").2 = [] ∧
    ((handleDisconnect
      (runEvents (fun _ _ => none) (fun _ => none)
        [Event.join "s1" "r1" "Ann" "en" "agent" "t1",
         Event.join "s2" "r1" "Bob" "fr" "user" "t2"]) "s2").1).messageHistory =
      (runEvents (fun _ _ => none) (fun _ => none)
        [Event.join "s1" "r1" "Ann" "en" "agent" "t1",
         Event.join "s2" "r1" "Bob" "fr" "user" "t2"]).messageHistory ∧
    alGet ((handleDisconnect
      (runEvents (fun _ _ => none) (fun _ => none)
        [Event.join "s1" "r1" "Ann" "en" "agent" "t1",
         Event.join "s2" "r1" "Bob" "fr" "user" "t2"]) "s2").1).rooms "r1" =
      some [("s1", { username := "Ann", language := "en", role := "agent" })] := by
  decide

/-- C1 (amended): on disconnect of a registered connection whose room retains
at least one other participant, the relay removes the participant and keeps
the room in the registry and its history unchanged, but it constructs,
appends and broadcasts no departure notice: the handler emits nothing (the
departure is only logged to the server console). -/
theorem c1_amended_no_departure_notice (st : ServerState) (sock r : String)
    (users : List (String × Participant))
    (hfirst : firstRoomOf sock st.rooms = some r)
    (hget : alGet st.rooms r = some users)
    (hin : (alGet users sock).isSome)
    (hne : alDel users sock ≠ []) :
    (handleDisconnect st sock).2 = [] ∧
    alGet ((handleDisconnect st sock).1).rooms r = some (alDel users sock) ∧
    ((handleDisconnect st sock).1).messageHistory = st.messageHistory := by
  have hd := disconnectAux_keep sock r users st.rooms st.messageHistory hfirst hget hin hne
  refine ⟨rfl, ?_, ?_⟩
  · simp [handleDisconnect, hd, alGet_alSet_self]
  · simp [handleDisconnect, hd]

/-- C1 amended-claim witness at a concrete two-participant room. -/
theorem c1_amended_witness :
    (handleDisconnect
        { rooms := [("r1",
            [("s1", { username := "Ann", language := "en", role := "agent" }),
             ("s2", { username := "Bob", language := "fr", role := "user" })])],
          messageHistory := [("r1", [])] } "s2").2 = [] ∧
    alGet ((handleDisconnect
        { rooms := [("r1",
            [("s1", { username := "Ann", language := "en", role := "agent" }),
             ("s2", { username := "Bob", language := "fr", role := "user" })])],
          messageHistory := [("r1", [])] } "s2").1).rooms "r1" =
      some [("s1", { username := "Ann", language := "en", role := "agent" })] ∧
    ((handleDisconnect
        { rooms := [("r1",
            [("s1", { username := "Ann", language := "en", role := "agent" }),
             ("s2", { username := "Bob", language := "fr", role := "user" })])],
          messageHistory := [("r1", [])] } "s2").1).messageHistory = [("r1", [])] := by
  have h := c1_amended_no_departure_notice
    { rooms := [("r1",
        [("s1", { username := "Ann", language := "en", role := "agent" }),
         ("s2", { username := "Bob", language := "fr", role := "user" })])],
      messageHistory := [("r1", [])] } "s2" "r1"
    [("s1", { username := "Ann", language := "en", role := "agent" }),
     ("s2", { username := "Bob", language := "fr", role := "user" })]
    (by decide) (by decide) (by decide) (by decide)
  refine ⟨h.1, ?_, h.2.2⟩
  rw [h.2.1]
  decide

/-- C2: in every reachable state, every room present in the registry has at
least one participant; and when a disconnect removes a room's last
participant, the room and its history are removed together, so a subsequent
join of that room id replays no history. -/
theorem c2_no_empty_rooms (tr : String → String → Option String)
    (sug : String → Option (List String)) (es : List Event) :
    (∀ r users, alGet (runEvents tr sug es).rooms r = some users → users ≠ []) ∧
    (∀ sock r p, firstRoomOf sock (runEvents tr sug es).rooms = some r →
      alGet (runEvents tr sug es).rooms r = some [(sock, p)] →
      alGet ((handleDisconnect (runEvents tr sug es) sock).1).rooms r = none ∧
      alGet ((handleDisconnect (runEvents tr sug es) sock).1).messageHistory r = none ∧
      ∀ sock2 username language role ts s recs,
        Output.historyTo s recs ∉
          (handleJoin ((handleDisconnect (runEvents tr sug es) sock).1)
            sock2 r username language role ts).2) := by
  have hg := goodState_runEvents tr sug es
  constructor
  · intro r users hget
    exact hg.2.2 _ (alGet_mem _ _ _ hget)
  · intro sock r p hfirst hget
    have hin : (alGet [(sock, p)] sock).isSome := by simp [alGet]
    have hemp : alDel [(sock, p)] sock = [] := by simp [alDel]
    have hd := disconnectAux_empty sock r [(sock, p)] (runEvents tr sug es).rooms
      (runEvents tr sug es).messageHistory hfirst hget hin hemp
    have hrooms : ((handleDisconnect (runEvents tr sug es) sock).1).rooms =
        alDel (runEvents tr sug es).rooms r := by
      simp [handleDisconnect, hd]
    have hhist : ((handleDisconnect (runEvents tr sug es) sock).1).messageHistory =
        alDel (runEvents tr sug es).messageHistory r := by
      simp [handleDisconnect, hd]
    have hnone : alGet ((handleDisconnect (runEvents tr sug es) sock).1).messageHistory r
        = none := by
      rw [hhist]
      exact alGet_alDel_self _ _ hg.2.1
    refine ⟨?_, hnone, ?_⟩
    · rw [hrooms]
      exact alGet_alDel_self _ _ hg.1
    · intro sock2 username language role ts s recs hmem
      by_cases hvj : (r = "" ∨ username = "" ∨ language = "" ∨ role = "")
      · simp only [handleJoin, if_pos hvj] at hmem
        simp at hmem
      · rw [handleJoin_outputs_nohist _ sock2 r username language role ts hvj hnone] at hmem
        simp at hmem

/-- C2 witness: Ann alone in r1; her disconnect removes room and history, and
a later join of r1 replays nothing. -/
theorem c2_no_empty_rooms_witness :
    ([("s1", { username := "Ann", language := "en", role := "agent" })] ≠
      ([] : List (String × Participant))) ∧
    alGet ((handleDisconnect (runEvents (fun _ _ => none) (fun _ => none)
        [Event.join "s1" "r1" "Ann" "en" "agent" "t1"]) "s1").1).rooms "r1" = none ∧
    alGet ((handleDisconnect (runEvents (fun _ _ => none) (fun _ => none)
        [Event.join "s1" "r1" "Ann" "en" "agent" "t1"]) "s1").1).messageHistory "r1" = none ∧
    Output.historyTo "s9" [] ∉
      (handleJoin ((handleDisconnect (runEvents (fun _ _ => none) (fun _ => none)
          [Event.join "s1" "r1" "Ann" "en" "agent" "t1"]) "s1").1)
        "s9" "r1" "Cam" "en" "user" "t9").2 := by
  have h := c2_no_empty_rooms (fun _ _ => none) (fun _ => none)
    [Event.join "s1" "r1" "Ann" "en" "agent" "t1"]
  have h1 := h.1 "r1" [("s1", { username := "Ann", language := "en", role := "agent" })]
    (by decide)
  have h2 := h.2 "s1" "r1" { username := "Ann", language := "en", role := "agent" }
    (by decide) (by decide)
  exact ⟨h1, h2.1, h2.2.1, h2.2.2 "s9" "Cam" "en" "user" "t9" "s9" []⟩

/-- C3 counterexample: connection s1 joins r1 and then joins r2; afterwards it
is registered as a participant of both rooms, so a connection does not appear
in at most one room. -/
theorem c3_counterexample :
    alGet (runEvents (fun _ _ => none) (fun _ => none)
      [Event.join "s1" "r1" "Ann" "en" "user" "t1",
       Event.join "s1" "r2" "Ann" "en" "user" "t2"]).rooms "r1" =
      some [("s1", { username := "Ann", language := "en", role := "user" })] ∧
    alGet (runEvents (fun _ _ => none) (fun _ => none)
      [Event.join "s1" "r1" "Ann" "en" "user" "t1",
       Event.join "s1" "r2" "Ann" "en" "user" "t2"]).rooms "r2" =
      some [("s1", { username := "Ann", language := "en", role := "user" })] := by
  decide

/-- C3 (amended): a join naming a second room does not remove the connection
from the first room, so after valid joins into two different rooms the
connection is registered as a participant of both rooms simultaneously. -/
theorem c3_amended_conn_in_two_rooms (sock room1 room2 username language role ts1 ts2 : String)
    (h1 : room1 ≠ "") (h2 : room2 ≠ "") (hne : room1 ≠ room2)
    (hu : username ≠ "") (hl : language ≠ "") (hro : role ≠ "") :
    ∃ us1 us2,
      alGet ((handleJoin (handleJoin initState sock room1 username language role ts1).1
        sock room2 username language role ts2).1).rooms room1 = some us1 ∧
      alGet ((handleJoin (handleJoin initState sock room1 username language role ts1).1
        sock room2 username language role ts2).1).rooms room2 = some us2 ∧
      (alGet us1 sock).isSome ∧ (alGet us2 sock).isSome := by
  have hv1 : ¬(room1 = "" ∨ username = "" ∨ language = "" ∨ role = "") := by
    push_neg
    exact ⟨h1, hu, hl, hro⟩
  have hv2 : ¬(room2 = "" ∨ username = "" ∨ language = "" ∨ role = "") := by
    push_neg
    exact ⟨h2, hu, hl, hro⟩
  have e1 : (handleJoin initState sock room1 username language role ts1).1.rooms =
      [(room1, [(sock, { username := username, language := language, role := role })])] := by
    rw [handleJoin_rooms initState sock room1 username language role ts1 hv1]
    simp [initState, alGet, alSet]
  have e2 : ((handleJoin (handleJoin initState sock room1 username language role ts1).1
      sock room2 username language role ts2).1).rooms =
      [(room1, [(sock, { username := username, language := language, role := role })]),
       (room2, [(sock, { username := username, language := language, role := role })])] := by
    rw [handleJoin_rooms _ sock room2 username language role ts2 hv2, e1]
    simp [alGet, alSet, hne]
  refine ⟨[(sock, { username := username, language := language, role := role })],
    [(sock, { username := username, language := language, role := role })], ?_, ?_, ?_, ?_⟩
  · rw [e2]
    simp [alGet]
  · rw [e2]
    simp [alGet, hne]
  · simp [alGet]
  · simp [alGet]

/-- C3 amended-claim witness at concrete rooms r1 and r2. -/
theorem c3_amended_witness :
    ∃ us1 us2,
      alGet ((handleJoin (handleJoin initState "s1" "r1" "Ann" "en" "user" "t1").1
        "s1" "r2" "Ann" "en" "user" "t2").1).rooms "r1" = some us1 ∧
      alGet ((handleJoin (handleJoin initState "s1" "r1" "Ann" "en" "user" "t1").1
        "s1" "r2" "Ann" "en" "user" "t2").1).rooms "r2" = some us2 ∧
      (alGet us1 "s1").isSome ∧ (alGet us2 "s1").isSome :=
  c3_amended_conn_in_two_rooms "s1" "r1" "r2" "Ann" "en" "user" "t1" "t2"
    (by decide) (by decide) (by decide) (by decide) (by decide) (by decide)

/-- C4: on a join into a room with existing history, an end-user joiner's
replay is exactly the log filtered to drop system- and private-tagged records,
in log order; an agent or supervisor joiner receives the entire unfiltered
log. -/
theorem c4_role_filtered_replay (st : ServerState)
    (sock room username language ts : String) (hist : List MsgRecord)
    (hroom : room ≠ "") (hu : username ≠ "") (hl : language ≠ "")
    (hh : alGet st.messageHistory room = some hist) :
    ((handleJoin st sock room username language "user" ts).2 =
      [Output.historyTo sock (hist.filter (fun msg =>
         msg.type != "system" && msg.type != "private")),
       Output.messageToRoom room
         { username := "System", text := username ++ " has joined the chat",
           timestamp := ts, type := "system" }]) ∧
    (∀ role, role = "agent" ∨ role = "supervisor" →
      (handleJoin st sock room username language role ts).2 =
        [Output.historyTo sock hist,
         Output.messageToRoom room
           { username := "System", text := username ++ " has joined the chat",
             timestamp := ts, type := "system" }]) := by
  constructor
  · have hv : ¬(room = "" ∨ username = "" ∨ language = "" ∨ ("user" : String) = "") := by
      push_neg
      exact ⟨hroom, hu, hl, by decide⟩
    rw [handleJoin_outputs_hist st sock room username language "user" ts hist hv hh]
    simp
  · intro role hrole
    have hrne : role ≠ "" := by
      rcases hrole with h | h <;> subst h <;> decide
    have hrnu : ¬(role = "user") := by
      rcases hrole with h | h <;> subst h <;> decide
    have hv : ¬(room = "" ∨ username = "" ∨ language = "" ∨ role = "") := by
      push_neg
      exact ⟨hroom, hu, hl, hrne⟩
    rw [handleJoin_outputs_hist st sock room username language role ts hist hv hh]
    simp [hrnu]

/-- C4 witness: a three-record history is filtered for a user joiner and
replayed whole for an agent joiner. -/
theorem c4_role_filtered_replay_witness :
    ((handleJoin
        { rooms := [("r1", [("s1", { username := "Ann", language := "en", role := "agent" })])],
          messageHistory := [("r1",
            [{ username := "System", text := "Ann has joined the chat",
               timestamp := "t1", type := "system" },
             { username := "Ann", text := "hi", timestamp := "t2", type := "public" },
             { username := "Ann", text := "psst", timestamp := "t3", type := "private" }])] }
        "s2" "r1" "Bob" "fr" "user" "t4").2 =
      [Output.historyTo "s2"
         [{ username := "Ann", text := "hi", timestamp := "t2", type := "public" }],
       Output.messageToRoom "r1"
         { username := "System", text := "Bob has joined the chat",
           timestamp := "t4", type := "system" }]) ∧
    ((handleJoin
        { rooms := [("r1", [("s1", { username := "Ann", language := "en", role := "agent" })])],
          messageHistory := [("r1",
            [{ username := "System", text := "Ann has joined the chat",
               timestamp := "t1", type := "system" },
             { username := "Ann", text := "hi", timestamp := "t2", type := "public" },
             { username := "Ann", text := "psst", timestamp := "t3", type := "private" }])] }
        "s3" "r1" "Cam" "fr" "agent" "t5").2 =
      [Output.historyTo "s3"
         [{ username := "System", text := "Ann has joined the chat",
            timestamp := "t1", type := "system" },
          { username := "Ann", text := "hi", timestamp := "t2", type := "public" },
          { username := "Ann", text := "psst", timestamp := "t3", type := "private" }],
       Output.messageToRoom "r1"
         { username := "System", text := "Cam has joined the chat",
           timestamp := "t5", type := "system" }]) := by
  constructor
  · have h := c4_role_filtered_replay
      { rooms := [("r1", [("s1", { username := "Ann", language := "en", role := "agent" })])],
        messageHistory := [("r1",
          [{ username := "System", text := "Ann has joined the chat",
             timestamp := "t1", type := "system" },
           { username := "Ann", text := "hi", timestamp := "t2", type := "public" },
           { username := "Ann", text := "psst", timestamp := "t3", type := "private" }])] }
      "s2" "r1" "Bob" "fr" "t4"
      [{ username := "System", text := "Ann has joined the chat",
         timestamp := "t1", type := "system" },
       { username := "Ann", text := "hi", timestamp := "t2", type := "public" },
       { username := "Ann", text := "psst", timestamp := "t3", type := "private" }]
      (by decide) (by decide) (by decide) (by decide)
    rw [h.1]
    decide
  · have h := c4_role_filtered_replay
      { rooms := [("r1", [("s1", { username := "Ann", language := "en", role := "agent" })])],
        messageHistory := [("r1",
          [{ username := "System", text := "Ann has joined the chat",
             timestamp := "t1", type := "system" },
           { username := "Ann", text := "hi", timestamp := "t2", type := "public" },
           { username := "Ann", text := "psst", timestamp := "t3", type := "private" }])] }
      "s3" "r1" "Cam" "fr" "t5"
      [{ username := "System", text := "Ann has joined the chat",
         timestamp := "t1", type := "system" },
       { username := "Ann", text := "hi", timestamp := "t2", type := "public" },
       { username := "Ann", text := "psst", timestamp := "t3", type := "private" }]
      (by decide) (by decide) (by decide) (by decide)
    exact h.2 "agent" (Or.inl rfl)

/-- C9: a joiner whose role string is anything other than exactly user --
including roles outside the documented set, such as admin -- receives the
complete unfiltered log, private- and system-tagged records included. -/
theorem c9_nonuser_full_replay (st : ServerState)
    (sock room username language role ts : String) (hist : List MsgRecord)
    (hroom : room ≠ "") (hu : username ≠ "") (hl : language ≠ "")
    (hrole : role ≠ "") (hnu : role ≠ "user")
    (hh : alGet st.messageHistory room = some hist) :
    (handleJoin st sock room username language role ts).2 =
      [Output.historyTo sock hist,
       Output.messageToRoom room
         { username := "System", text := username ++ " has joined the chat",
           timestamp := ts, type := "system" }] := by
  have hv : ¬(room = "" ∨ username = "" ∨ language = "" ∨ role = "") := by
    push_neg
    exact ⟨hroom, hu, hl, hrole⟩
  rw [handleJoin_outputs_hist st sock room username language role ts hist hv hh]
  simp [hnu]

/-- C9 witness: a joiner with unrecognized role admin gets the full log,
including a private and a system record. -/
theorem c9_nonuser_full_replay_witness :
    (handleJoin
        { rooms := [("r1", [("s1", { username := "Ann", language := "en", role := "agent" })])],
          messageHistory := [("r1",
            [{ username := "System", text := "Ann has joined the chat",
               timestamp := "t1", type := "system" },
             { username := "Ann", text := "psst", timestamp := "t2", type := "private" }])] }
        "s4" "r1" "Dee" "de" "admin" "t6").2 =
      [Output.historyTo "s4"
         [{ username := "System", text := "Ann has joined the chat",
            timestamp := "t1", type := "system" },
          { username := "Ann", text := "psst", timestamp := "t2", type := "private" }],
       Output.messageToRoom "r1"
         { username := "System", text := "Dee has joined the chat",
           timestamp := "t6", type := "system" }] :=
  c9_nonuser_full_replay
    { rooms := [("r1", [("s1", { username := "Ann", language := "en", role := "agent" })])],
      messageHistory := [("r1",
        [{ username := "System", text := "Ann has joined the chat",
           timestamp := "t1", type := "system" },
         { username := "Ann", text := "psst", timestamp := "t2", type := "private" }])] }
    "s4" "r1" "Dee" "de" "admin" "t6"
    [{ username := "System", text := "Ann has joined the chat",
       timestamp := "t1", type := "system" },
     { username := "Ann", text := "psst", timestamp := "t2", type := "private" }]
    (by decide) (by decide) (by decide) (by decide) (by decide) (by decide)

/-- C5: in a chat fan-out, a recipient whose registered language equals the
sender-declared language receives the original text with the translated flag
false; any other recipient for whom the gateway returns a translation
receives the gateway output with the flag true. -/
theorem c5_translation_per_recipient (tr : String → String → Option String)
    (sug : String → Option (List String)) (st : ServerState)
    (sock room message language ts : String)
    (roomUsers : List (String × Participant)) (sender : Participant)
    (p : String × Participant)
    (hv : ¬(room = "" ∨ message = "" ∨ language = ""))
    (hr : alGet st.rooms room = some roomUsers)
    (hs : alGet roomUsers sock = some sender)
    (hp : p ∈ roomUsers) :
    (p.2.language = language →
      Output.messageTo p.1
        { username := sender.username, text := message, originalText := some message,
          isTranslated := some false, timestamp := ts, type := "public",
          role := some sender.role } ∈
        (handleChatMessage tr sug st sock room message language ts).2) ∧
    (∀ t, p.2.language ≠ language → tr message p.2.language = some t →
      Output.messageTo p.1
        { username := sender.username, text := t, originalText := some message,
          isTranslated := some true, timestamp := ts, type := "public",
          role := some sender.role } ∈
        (handleChatMessage tr sug st sock room message language ts).2) := by
  rw [handleChatMessage_outputs tr sug st sock room message language ts roomUsers sender hv hr hs]
  constructor
  · intro heq
    have harr : deliverOne tr sender message language ts p =
        some { username := sender.username, text := message, originalText := some message,
               isTranslated := some false, timestamp := ts, type := "public",
               role := some sender.role } := by
      simp [deliverOne, heq]
    apply List.mem_append_right
    have hmem := List.mem_map_of_mem (fun q =>
      match deliverOne tr sender message language ts q with
      | some r => Output.messageTo q.1 r
      | none => Output.errorTo q.1 "Message delivery failed") hp
    simpa [harr] using hmem
  · intro t hneq htr
    have harr : deliverOne tr sender message language ts p =
        some { username := sender.username, text := t, originalText := some message,
               isTranslated := some true, timestamp := ts, type := "public",
               role := some sender.role } := by
      simp [deliverOne, hneq, htr]
    apply List.mem_append_right
    have hmem := List.mem_map_of_mem (fun q =>
      match deliverOne tr sender message language ts q with
      | some r => Output.messageTo q.1 r
      | none => Output.errorTo q.1 "Message delivery failed") hp
    simpa [harr] using hmem

/-- C6: a per-recipient delivery failure is isolated -- the failing recipient
receives the delivery-failure signal, every successfully built record is
still pushed to its recipient, and a recipient all of whose entries succeed
never receives the delivery-failure signal. -/
theorem c6_per_recipient_isolation (tr : String → String → Option String)
    (sug : String → Option (List String)) (st : ServerState)
    (sock room message language ts : String)
    (roomUsers : List (String × Participant)) (sender : Participant)
    (a : String × Participant)
    (hv : ¬(room = "" ∨ message = "" ∨ language = ""))
    (hr : alGet st.rooms room = some roomUsers)
    (hs : alGet roomUsers sock = some sender)
    (ha : a ∈ roomUsers)
    (hafail : deliverOne tr sender message language ts a = none) :
    Output.errorTo a.1 "Message delivery failed" ∈
      (handleChatMessage tr sug st sock room message language ts).2 ∧
    (∀ b ∈ roomUsers, ∀ rb, deliverOne tr sender message language ts b = some rb →
      Output.messageTo b.1 rb ∈
        (handleChatMessage tr sug st sock room message language ts).2) ∧
    (∀ x, (∀ q ∈ roomUsers, q.1 = x → (deliverOne tr sender message language ts q).isSome) →
      Output.errorTo x "Message delivery failed" ∉
        (handleChatMessage tr sug st sock room message language ts).2) := by
  rw [handleChatMessage_outputs tr sug st sock room message language ts roomUsers sender hv hr hs]
  refine ⟨?_, ?_, ?_⟩
  · apply List.mem_append_right
    have hmem := List.mem_map_of_mem (fun q =>
      match deliverOne tr sender message language ts q with
      | some r => Output.messageTo q.1 r
      | none => Output.errorTo q.1 "Message delivery failed") ha
    simpa [hafail] using hmem
  · intro b hb rb hrb
    apply List.mem_append_right
    have hmem := List.mem_map_of_mem (fun q =>
      match deliverOne tr sender message language ts q with
      | some r => Output.messageTo q.1 r
      | none => Output.errorTo q.1 "Message delivery failed") hb
    simpa [hrb] using hmem
  · intro x hx hmem
    rcases List.mem_append.mp hmem with hmem | hmem
    · by_cases hrole : sender.role = "user"
      · rw [if_pos hrole] at hmem
        cases hsug : sug message with
        | some sugs =>
          rw [hsug] at hmem
          rcases List.mem_map.mp hmem with ⟨q, hq, heq⟩
          simp at heq
        | none =>
          rw [hsug] at hmem
          simp at hmem
      · rw [if_neg hrole] at hmem
        simp at hmem
    · rcases List.mem_map.mp hmem with ⟨q, hq, heq⟩
      cases hdq : deliverOne tr sender message language ts q with
      | some r =>
        rw [hdq] at heq
        simp at heq
      | none =>
        rw [hdq] at heq
        simp at heq
        have hsome := hx q hq heq
        rw [hdq] at hsome
        simp at hsome

/-- C7: for an end-user sender with a successful suggestion gateway call, a
suggestion push goes to exactly the connections registered with role agent;
for a sender of any other role the whole handler result is independent of the
suggestion gateway, so the gateway is never consulted. -/
theorem c7_suggestions_agents_only (tr : String → String → Option String)
    (sug : String → Option (List String)) (st : ServerState)
    (sock room message language ts : String)
    (roomUsers : List (String × Participant)) (sender : Participant)
    (hv : ¬(room = "" ∨ message = "" ∨ language = ""))
    (hr : alGet st.rooms room = some roomUsers)
    (hs : alGet roomUsers sock = some sender) :
    (sender.role = "user" → ∀ sugs, sug message = some sugs →
      ∀ x batch,
        (Output.suggestionsTo x batch ∈
            (handleChatMessage tr sug st sock room message language ts).2 ↔
          (batch = sugs ∧ ∃ q, q ∈ roomUsers ∧ q.1 = x ∧ q.2.role = "agent"))) ∧
    (sender.role ≠ "user" → ∀ sug2 : String → Option (List String),
      handleChatMessage tr sug st sock room message language ts =
        handleChatMessage tr sug2 st sock room message language ts) := by
  constructor
  · intro hrole sugs hsug x batch
    have houts : (handleChatMessage tr sug st sock room message language ts).2 =
        (roomUsers.filter (fun p => p.2.role == "agent")).map
          (fun p => Output.suggestionsTo p.1 sugs) ++
        roomUsers.map (fun p =>
          match deliverOne tr sender message language ts p with
          | some r => Output.messageTo p.1 r
          | none => Output.errorTo p.1 "Message delivery failed") := by
      rw [handleChatMessage_outputs tr sug st sock room message language ts roomUsers sender
        hv hr hs, if_pos hrole, hsug]
    rw [houts]
    constructor
    · intro hmem
      rcases List.mem_append.mp hmem with hmem | hmem
      · rcases List.mem_map.mp hmem with ⟨q, hq, heq⟩
        rcases List.mem_filter.mp hq with ⟨hq1, hq2⟩
        simp at heq
        exact ⟨heq.2.symm, q, hq1, heq.1, by simpa using hq2⟩
      · rcases List.mem_map.mp hmem with ⟨q, hq, heq⟩
        cases hdq : deliverOne tr sender message language ts q with
        | some r =>
          rw [hdq] at heq
          simp at heq
        | none =>
          rw [hdq] at heq
          simp at heq
    · rintro ⟨hbatch, q, hq, hqx, hqrole⟩
      apply List.mem_append_left
      have hqf : q ∈ roomUsers.filter (fun p => p.2.role == "agent") :=
        List.mem_filter.mpr ⟨hq, by simp [hqrole]⟩
      have hmem := List.mem_map_of_mem (fun p => Output.suggestionsTo p.1 sugs) hqf
      simpa [hqx, hbatch] using hmem
  · intro hrole sug2
    rw [handleChatMessage_eq tr sug st sock room message language ts roomUsers sender hv hr hs,
      handleChatMessage_eq tr sug2 st sock room message language ts roomUsers sender hv hr hs]
    simp [hrole]

/-- C8: with every recipient succeeding, the handler appends exactly one
record per current participant (the sender's own entry included) to the
room's history, and every appended record carries the single timestamp of the
handler invocation. -/
theorem c8_one_record_per_recipient (tr : String → String → Option String)
    (sug : String → Option (List String)) (st : ServerState)
    (sock room message language ts : String)
    (roomUsers : List (String × Participant)) (sender : Participant)
    (hist : List MsgRecord)
    (hv : ¬(room = "" ∨ message = "" ∨ language = ""))
    (hr : alGet st.rooms room = some roomUsers)
    (hs : alGet roomUsers sock = some sender)
    (hh : alGet st.messageHistory room = some hist)
    (hok : ∀ p ∈ roomUsers, p.2.language = language ∨ (tr message p.2.language).isSome) :
    alGet ((handleChatMessage tr sug st sock room message language ts).1).messageHistory room =
      some (hist ++ roomUsers.filterMap (deliverOne tr sender message language ts)) ∧
    (roomUsers.filterMap (deliverOne tr sender message language ts)).length =
      roomUsers.length ∧
    (∀ r ∈ roomUsers.filterMap (deliverOne tr sender message language ts),
      r.timestamp = ts) ∧
    (∀ r2, deliverOne tr sender message language ts (sock, sender) = some r2 →
      r2 ∈ roomUsers.filterMap (deliverOne tr sender message language ts)) := by
  refine ⟨?_, ?_, ?_, ?_⟩
  · rw [handleChatMessage_messageHistory tr sug st sock room message language ts roomUsers
      sender hv hr hs, alGet_alSet_self, hh]
    rfl
  · exact filterMap_length_of_all _ _
      (fun p hp => deliverOne_isSome tr sender message language ts p (hok p hp))
  · intro r hrr
    rcases List.mem_filterMap.mp hrr with ⟨p, hp, hdp⟩
    exact deliverOne_timestamp tr sender message language ts p r hdp
  · intro r2 hr2
    exact List.mem_filterMap.mpr ⟨(sock, sender), alGet_mem _ _ _ hs, hr2⟩

/-- C10: a failing per-recipient delivery appends no record for that
recipient: the history gains exactly the successfully built records (each
success present), and with a failing recipient present the gained records are
strictly fewer than the participants. -/
theorem c10_failed_recipient_absent (tr : String → String → Option String)
    (sug : String → Option (List String)) (st : ServerState)
    (sock room message language ts : String)
    (roomUsers : List (String × Participant)) (sender : Participant)
    (hist : List MsgRecord) (a : String × Participant)
    (hv : ¬(room = "" ∨ message = "" ∨ language = ""))
    (hr : alGet st.rooms room = some roomUsers)
    (hs : alGet roomUsers sock = some sender)
    (hh : alGet st.messageHistory room = some hist)
    (ha : a ∈ roomUsers)
    (hafail : deliverOne tr sender message language ts a = none) :
    alGet ((handleChatMessage tr sug st sock room message language ts).1).messageHistory room =
      some (hist ++ roomUsers.filterMap (deliverOne tr sender message language ts)) ∧
    (∀ b ∈ roomUsers, ∀ rb, deliverOne tr sender message language ts b = some rb →
      rb ∈ roomUsers.filterMap (deliverOne tr sender message language ts)) ∧
    (roomUsers.filterMap (deliverOne tr sender message language ts)).length <
      roomUsers.length := by
  refine ⟨?_, ?_, ?_⟩
  · rw [handleChatMessage_messageHistory tr sug st sock room message language ts roomUsers
      sender hv hr hs, alGet_alSet_self, hh]
    rfl
  · intro b hb rb hrb
    exact List.mem_filterMap.mpr ⟨b, hb, hrb⟩
  · exact filterMap_length_lt _ _ a ha hafail

/-- C5 witness: Bob (fr) messages in French; his own copy is untranslated with
flag false, Ann (en) gets the gateway output with flag true. -/
theorem c5_translation_witness :
    Output.messageTo "s2"
      { username := "Bob", text := "bonjour", originalText := some "bonjour",
        isTranslated := some false, timestamp := "T", type := "public",
        role := some "user" } ∈
      (handleChatMessage (fun _ _ => some "hello") (fun _ => none)
        { rooms := [("r1",
            [("s1", { username := "Ann", language := "en", role := "agent" }),
             ("s2", { username := "Bob", language := "fr", role := "user" })])],
          messageHistory := [("r1", [])] } "s2" "r1" "bonjour" "fr" "T").2 ∧
    Output.messageTo "s1"
      { username := "Bob", text := "hello", originalText := some "bonjour",
        isTranslated := some true, timestamp := "T", type := "public",
        role := some "user" } ∈
      (handleChatMessage (fun _ _ => some "hello") (fun _ => none)
        { rooms := [("r1",
            [("s1", { username := "Ann", language := "en", role := "agent" }),
             ("s2", { username := "Bob", language := "fr", role := "user" })])],
          messageHistory := [("r1", [])] } "s2" "r1" "bonjour" "fr" "T").2 := by
  constructor
  · exact (c5_translation_per_recipient (fun _ _ => some "hello") (fun _ => none)
      { rooms := [("r1",
          [("s1", { username := "Ann", language := "en", role := "agent" }),
           ("s2", { username := "Bob", language := "fr", role := "user" })])],
        messageHistory := [("r1", [])] } "s2" "r1" "bonjour" "fr" "T"
      [("s1", { username := "Ann", language := "en", role := "agent" }),
       ("s2", { username := "Bob", language := "fr", role := "user" })]
      { username := "Bob", language := "fr", role := "user" }
      ("s2", { username := "Bob", language := "fr", role := "user" })
      (by decide) (by decide) (by decide) (by decide)).1 rfl
  · exact (c5_translation_per_recipient (fun _ _ => some "hello") (fun _ => none)
      { rooms := [("r1",
          [("s1", { username := "Ann", language := "en", role := "agent" }),
           ("s2", { username := "Bob", language := "fr", role := "user" })])],
        messageHistory := [("r1", [])] } "s2" "r1" "bonjour" "fr" "T"
      [("s1", { username := "Ann", language := "en", role := "agent" }),
       ("s2", { username := "Bob", language := "fr", role := "user" })]
      { username := "Bob", language := "fr", role := "user" }
      ("s1", { username := "Ann", language := "en", role := "agent" })
      (by decide) (by decide) (by decide) (by decide)).2 "hello" (by decide) rfl

/-- C6 witness: the gateway fails only for English; Ann (en) gets the
delivery-failure signal, Bob still gets his copy and no failure signal. -/
theorem c6_isolation_witness :
    Output.errorTo "s1" "Message delivery failed" ∈
      (handleChatMessage (fun _ l => if l = "en" then none else some "tx") (fun _ => none)
        { rooms := [("r1",
            [("s1", { username := "Ann", language := "en", role := "agent" }),
             ("s2", { username := "Bob", language := "fr", role := "user" })])],
          messageHistory := [("r1", [])] } "s2" "r1" "bonjour" "fr" "T").2 ∧
    Output.messageTo "s2"
      { username := "Bob", text := "bonjour", originalText := some "bonjour",
        isTranslated := some false, timestamp := "T", type := "public",
        role := some "user" } ∈
      (handleChatMessage (fun _ l => if l = "en" then none else some "tx") (fun _ => none)
        { rooms := [("r1",
            [("s1", { username := "Ann", language := "en", role := "agent" }),
             ("s2", { username := "Bob", language := "fr", role := "user" })])],
          messageHistory := [("r1", [])] } "s2" "r1" "bonjour" "fr" "T").2 ∧
    Output.errorTo "s2" "Message delivery failed" ∉
      (handleChatMessage (fun _ l => if l = "en" then none else some "tx") (fun _ => none)
        { rooms := [("r1",
            [("s1", { username := "Ann", language := "en", role := "agent" }),
             ("s2", { username := "Bob", language := "fr", role := "user" })])],
          messageHistory := [("r1", [])] } "s2" "r1" "bonjour" "fr" "T").2 := by
  have h := c6_per_recipient_isolation
    (fun _ l => if l = "en" then none else some "tx") (fun _ => none)
    { rooms := [("r1",
        [("s1", { username := "Ann", language := "en", role := "agent" }),
         ("s2", { username := "Bob", language := "fr", role := "user" })])],
      messageHistory := [("r1", [])] } "s2" "r1" "bonjour" "fr" "T"
    [("s1", { username := "Ann", language := "en", role := "agent" }),
     ("s2", { username := "Bob", language := "fr", role := "user" })]
    { username := "Bob", language := "fr", role := "user" }
    ("s1", { username := "Ann", language := "en", role := "agent" })
    (by decide) (by decide) (by decide) (by decide) (by decide)
  exact ⟨h.1,
    h.2.1 (("s2", { username := "Bob", language := "fr", role := "user" }) :
        String × Participant) (by decide)
      { username := "Bob", text := "bonjour", originalText := some "bonjour",
        isTranslated := some false, timestamp := "T", type := "public",
        role := some "user" } (by decide),
    h.2.2 "s2" (by decide)⟩

/-- C7 witness: in a room with agent Ann, user Bob and supervisor Sue, Bob's
message pushes the suggestion batch to Ann and not to Sue; and with Sue as
sender, the handler result does not depend on the suggestion gateway at
all. -/
theorem c7_suggestions_witness :
    Output.suggestionsTo "s1" ["sug1"] ∈
      (handleChatMessage (fun _ _ => some "hello") (fun _ => some ["sug1"])
        { rooms := [("r1",
            [("s1", { username := "Ann", language := "en", role := "agent" }),
             ("s2", { username := "Bob", language := "fr", role := "user" }),
             ("s3", { username := "Sue", language := "en", role := "supervisor" })])],
          messageHistory := [("r1", [])] } "s2" "r1" "bonjour" "fr" "T").2 ∧
    Output.suggestionsTo "s3" ["sug1"] ∉
      (handleChatMessage (fun _ _ => some "hello") (fun _ => some ["sug1"])
        { rooms := [("r1",
            [("s1", { username := "Ann", language := "en", role := "agent" }),
             ("s2", { username := "Bob", language := "fr", role := "user" }),
             ("s3", { username := "Sue", language := "en", role := "supervisor" })])],
          messageHistory := [("r1", [])] } "s2" "r1" "bonjour" "fr" "T").2 ∧
    handleChatMessage (fun _ _ => some "hello") (fun _ => some ["sug1"])
        { rooms := [("r1",
            [("s1", { username := "Ann", language := "en", role := "agent" }),
             ("s2", { username := "Bob", language := "fr", role := "user" }),
             ("s3", { username := "Sue", language := "en", role := "supervisor" })])],
          messageHistory := [("r1", [])] } "s3" "r1" "hi" "en" "T2" =
      handleChatMessage (fun _ _ => some "hello") (fun _ => none)
        { rooms := [("r1",
            [("s1", { username := "Ann", language := "en", role := "agent" }),
             ("s2", { username := "Bob", language := "fr", role := "user" }),
             ("s3", { username := "Sue", language := "en", role := "supervisor" })])],
          messageHistory := [("r1", [])] } "s3" "r1" "hi" "en" "T2" := by
  have h := c7_suggestions_agents_only (fun _ _ => some "hello") (fun _ => some ["sug1"])
    { rooms := [("r1",
        [("s1", { username := "Ann", language := "en", role := "agent" }),
         ("s2", { username := "Bob", language := "fr", role := "user" }),
         ("s3", { username := "Sue", language := "en", role := "supervisor" })])],
      messageHistory := [("r1", [])] } "s2" "r1" "bonjour" "fr" "T"
    [("s1", { username := "Ann", language := "en", role := "agent" }),
     ("s2", { username := "Bob", language := "fr", role := "user" }),
     ("s3", { username := "Sue", language := "en", role := "supervisor" })]
    { username := "Bob", language := "fr", role := "user" }
    (by decide) (by decide) (by decide)
  have h3 := c7_suggestions_agents_only (fun _ _ => some "hello") (fun _ => some ["sug1"])
    { rooms := [("r1",
        [("s1", { username := "Ann", language := "en", role := "agent" }),
         ("s2", { username := "Bob", language := "fr", role := "user" }),
         ("s3", { username := "Sue", language := "en", role := "supervisor" })])],
      messageHistory := [("r1", [])] } "s3" "r1" "hi" "en" "T2"
    [("s1", { username := "Ann", language := "en", role := "agent" }),
     ("s2", { username := "Bob", language := "fr", role := "user" }),
     ("s3", { username := "Sue", language := "en", role := "supervisor" })]
    { username := "Sue", language := "en", role := "supervisor" }
    (by decide) (by decide) (by decide)
  refine ⟨?_, ?_, h3.2 (by decide) (fun _ => none)⟩
  · exact (h.1 rfl ["sug1"] rfl "s1" ["sug1"]).mpr
      ⟨rfl, ("s1", { username := "Ann", language := "en", role := "agent" }),
        by decide, rfl, rfl⟩
  · intro hmem
    rcases (h.1 rfl ["sug1"] rfl "s3" ["sug1"]).mp hmem with ⟨hb, q, hq, hqx, hqr⟩
    simp at hq
    rcases hq with hq | hq | hq <;> subst hq <;> revert hqx hqr <;> decide

/-- C8 witness: two recipients, both successful; the history gains two
records, one per recipient with the sender's own copy among them, and each
carries the shared timestamp. -/
theorem c8_fanout_witness :
    alGet ((handleChatMessage (fun _ _ => some "hello") (fun _ => none)
        { rooms := [("r1",
            [("s1", { username := "Ann", language := "en", role := "agent" }),
             ("s2", { username := "Bob", language := "fr", role := "user" })])],
          messageHistory := [("r1", [])] } "s2" "r1" "bonjour" "fr" "T").1).messageHistory
        "r1" =
      some ([] ++
        [("s1", { username := "Ann", language := "en", role := "agent" }),
         ("s2", { username := "Bob", language := "fr", role := "user" })].filterMap
          (deliverOne (fun _ _ => some "hello")
            { username := "Bob", language := "fr", role := "user" } "bonjour" "fr" "T")) ∧
    ([("s1", { username := "Ann", language := "en", role := "agent" }),
      ("s2", { username := "Bob", language := "fr", role := "user" })].filterMap
        (deliverOne (fun _ _ => some "hello")
          { username := "Bob", language := "fr", role := "user" } "bonjour" "fr" "T")).length =
      ([("s1", { username := "Ann", language := "en", role := "agent" }),
        ("s2", { username := "Bob", language := "fr", role := "user" })] :
        List (String × Participant)).length ∧
    ({ username := "Bob", text := "bonjour", originalText := some "bonjour",
       isTranslated := some false, timestamp := "T", type := "public",
       role := some "user" } : MsgRecord).timestamp = "T" ∧
    ({ username := "Bob", text := "bonjour", originalText := some "bonjour",
       isTranslated := some false, timestamp := "T", type := "public",
       role := some "user" } : MsgRecord) ∈
      [("s1", { username := "Ann", language := "en", role := "agent" }),
       ("s2", { username := "Bob", language := "fr", role := "user" })].filterMap
        (deliverOne (fun _ _ => some "hello")
          { username := "Bob", language := "fr", role := "user" } "bonjour" "fr" "T") := by
  have h := c8_one_record_per_recipient (fun _ _ => some "hello") (fun _ => none)
    { rooms := [("r1",
        [("s1", { username := "Ann", language := "en", role := "agent" }),
         ("s2", { username := "Bob", language := "fr", role := "user" })])],
      messageHistory := [("r1", [])] } "s2" "r1" "bonjour" "fr" "T"
    [("s1", { username := "Ann", language := "en", role := "agent" }),
     ("s2", { username := "Bob", language := "fr", role := "user" })]
    { username := "Bob", language := "fr", role := "user" } []
    (by decide) (by decide) (by decide) (by decide) (by decide)
  refine ⟨h.1, h.2.1, ?_, ?_⟩
  · exact h.2.2.1
      { username := "Bob", text := "bonjour", originalText := some "bonjour",
        isTranslated := some false, timestamp := "T", type := "public",
        role := some "user" } (by decide)
  · exact h.2.2.2
      { username := "Bob", text := "bonjour", originalText := some "bonjour",
        isTranslated := some false, timestamp := "T", type := "public",
        role := some "user" } (by decide)

/-- C10 witness: the gateway fails for Ann (en); the history gains only Bob's
record -- one record instead of two -- while Bob's record is present. -/
theorem c10_atomicity_witness :
    alGet ((handleChatMessage (fun _ l => if l = "en" then none else some "tx")
        (fun _ => none)
        { rooms := [("r1",
            [("s1", { username := "Ann", language := "en", role := "agent" }),
             ("s2", { username := "Bob", language := "fr", role := "user" })])],
          messageHistory := [("r1", [])] } "s2" "r1" "bonjour" "fr" "T").1).messageHistory
        "r1" =
      some ([] ++
        [("s1", { username := "Ann", language := "en", role := "agent" }),
         ("s2", { username := "Bob", language := "fr", role := "user" })].filterMap
          (deliverOne (fun _ l => if l = "en" then none else some "tx")
            { username := "Bob", language := "fr", role := "user" } "bonjour" "fr" "T")) ∧
    ({ username := "Bob", text := "bonjour", originalText := some "bonjour",
       isTranslated := some false, timestamp := "T", type := "public",
       role := some "user" } : MsgRecord) ∈
      [("s1", { username := "Ann", language := "en", role := "agent" }),
       ("s2", { username := "Bob", language := "fr", role := "user" })].filterMap
        (deliverOne (fun _ l => if l = "en" then none else some "tx")
          { username := "Bob", language := "fr", role := "user" } "bonjour" "fr" "T") ∧
    ([("s1", { username := "Ann", language := "en", role := "agent" }),
      ("s2", { username := "Bob", language := "fr", role := "user" })].filterMap
        (deliverOne (fun _ l => if l = "en" then none else some "tx")
          { username := "Bob", language := "fr", role := "user" } "bonjour" "fr" "T")).length <
      ([("s1", { username := "Ann", language := "en", role := "agent" }),
        ("s2", { username := "Bob", language := "fr", role := "user" })] :
        List (String × Participant)).length := by
  have h := c10_failed_recipient_absent (fun _ l => if l = "en" then none else some "tx")
    (fun _ => none)
    { rooms := [("r1",
        [("s1", { username := "Ann", language := "en", role := "agent" }),
         ("s2", { username := "Bob", language := "fr", role := "user" })])],
      messageHistory := [("r1", [])] } "s2" "r1" "bonjour" "fr" "T"
    [("s1", { username := "Ann", language := "en", role := "agent" }),
     ("s2", { username := "Bob", language := "fr", role := "user" })]
    { username := "Bob", language := "fr", role := "user" } []
    ("s1", { username := "Ann", language := "en", role := "agent" })
    (by decide) (by decide) (by decide) (by decide) (by decide) (by decide)
  exact ⟨h.1,
    h.2.1 (("s2", { username := "Bob", language := "fr", role := "user" }) :
        String × Participant) (by decide)
      { username := "Bob", text := "bonjour", originalText := some "bonjour",
        isTranslated := some false, timestamp := "T", type := "public",
        role := some "user" } (by decide),
    h.2.2⟩
